import Mathlib

/-!
Verification of the script-generation core of `smart-edit`
(`src/smart_edit/script_generation.py`), shallowly embedded in Lean.

Modelling conventions:
* Python floats are modelled as exact rationals (`ℚ`); every numeric
  comparison in the source (`> 0.3`, `> target * 1.2`, ...) is taken at its
  exact rational value.
* Python strings are Lean `String`s; the string operations used by the
  source (`strip`, `lower`, `split`, `in`, `endswith`, `len`) are defined
  below by structural recursion on the underlying character list, mirroring
  Python semantics for the ASCII texts the program manipulates.
* The OpenAI call of `_generate_with_ai` is an external effect; its result
  (everything up to and including `json.loads`) is modelled as an ambient
  value of type `Except String AiResponse`: `.error` covers a raised
  exception or unparseable JSON, `.ok r` a parsed JSON object `r` whose
  fields are `Option`s (`none` models a missing key).
* Wall-clock metadata (`generation_time_seconds`) and the configured model
  name string are irrelevant to all claims and are not modelled.
-/

/-- Python `str.strip()`: remove leading and trailing whitespace. -/
def py_strip (s : String) : String :=
  ⟨((s.data.dropWhile Char.isWhitespace).reverse.dropWhile Char.isWhitespace).reverse⟩

/-- Python `str.lower()` (ASCII case folding, as used by the source). -/
def py_lower (s : String) : String := ⟨s.data.map Char.toLower⟩

/-- Helper for `py_words`: split a character list on whitespace runs,
dropping empty chunks, with an accumulator for the current word. -/
def wordsAux : List Char → List Char → List (List Char)
  | [], acc => if acc.isEmpty then [] else [acc.reverse]
  | c :: rest, acc =>
    if c.isWhitespace then
      (if acc.isEmpty then wordsAux rest [] else acc.reverse :: wordsAux rest [])
    else wordsAux rest (c :: acc)

/-- Python `str.split()` with no argument: split on whitespace runs,
ignoring leading/trailing whitespace. -/
def py_words (s : String) : List String := (wordsAux s.data []).map String.mk

/-- Substring test on character lists (Python `needle in hay`). -/
def list_contains_sub (needle : List Char) : List Char → Bool
  | [] => needle.isEmpty
  | c :: rest => needle.isPrefixOf (c :: rest) || list_contains_sub needle rest

/-- Python `needle in hay` on strings: substring containment. -/
def py_in (needle hay : String) : Bool := list_contains_sub needle.data hay.data

/-- Python `len` on a string: number of characters. -/
def py_len (s : String) : ℕ := s.data.length

/-- Python `text.endswith('?')`. -/
def py_endswith_qm (s : String) : Bool := s.data.getLast? == some '?'

/-- A transcript segment as consumed by the generator
(`TranscriptSegment` from the transcription module): `start`/`end` times in
seconds, the spoken `text`, and the `content_type` tag read by
`getattr(segment, 'content_type', 'unknown')`. -/
structure TranscriptSegment where
  start : ℚ
  end_ : ℚ
  text : String
  content_type : String := "unknown"
  deriving DecidableEq

/-- A transcription result: its ordered segment list plus the
`metadata['total_duration']` entry (`none` models a missing key, read by
`metadata.get('total_duration', 0)`). -/
structure TranscriptionResult where
  segments : List TranscriptSegment
  total_duration : Option ℚ
  deriving DecidableEq

/-- `ScriptSegment` dataclass of `script_generation.py`. Indices are `ℤ`
because the AI path builds them with Python `int(...)`. -/
structure ScriptSegment where
  start_time : ℚ
  end_time : ℚ
  content : String
  video_index : ℤ
  original_segment_id : ℤ
  keep : Bool := true
  reason : String := ""
  deriving DecidableEq

/-- The entries of the `metadata` dictionary of a `GeneratedScript` that the
source ever writes (wall-clock timing and the configured model-name string
excepted, see the file header). `ai_used` is `none` until
`generate_script_from_prompt` assigns `script.metadata["ai_used"]`. -/
structure ScriptMetadata where
  video_count : ℕ
  compression_ratio : ℚ
  fallback_used : Bool := false
  ai_used : Option Bool := none
  total_original_segments : ℕ := 0
  segments_in_script : ℕ := 0
  deriving DecidableEq

/-- `GeneratedScript` dataclass of `script_generation.py`. -/
structure GeneratedScript where
  full_text : String
  segments : List ScriptSegment
  title : String
  target_duration_minutes : ℤ
  estimated_duration_seconds : ℚ
  original_duration_seconds : ℚ
  user_prompt : String
  metadata : ScriptMetadata
  deriving DecidableEq

/-- The filler stoplist of `_should_keep_segment_fallback`. -/
def filler_stoplist : List String := ["um", "uh", "like", "you know", "so", "well"]

/-- The importance keywords of `_should_keep_segment_fallback`. -/
def importance_keywords : List String :=
  ["important", "key", "main", "first", "second", "next", "finally", "conclusion"]

/-- Number of words of a (lowered, stripped) text, Python
`len(text.split())`. -/
def word_count (text : String) : ℕ := (py_words text).length

/-- Number of stoplist entries occurring as substrings of `text`:
Python `sum(1 for word in [...] if word in text)`. -/
def filler_hits (text : String) : ℕ :=
  (filler_stoplist.filter (fun w => py_in w text)).length

/-- `SmartScriptGenerator._should_keep_segment_fallback`. The float test
`filler_ratio > 0.3` with `filler_ratio = filler_hits / max(1, word_count)`
is taken exactly: `10 * filler_hits > 3 * max 1 word_count`. -/
def should_keep_segment_fallback (segment : TranscriptSegment) : Bool :=
  let text := py_strip (py_lower segment.text)
  if py_len text < 10 then false
  else if 10 * filler_hits text > 3 * max 1 (word_count text) then false
  else if py_endswith_qm text then true
  else if importance_keywords.any (fun w => py_in w text) then true
  else if 5 ≤ word_count text ∧ word_count text ≤ 50 then true
  else decide (3 < word_count text)

/-- Duration contributed by a script segment, `end_time - start_time`. -/
def segment_duration (s : ScriptSegment) : ℚ := s.end_time - s.start_time

/-- Total duration of a list of script segments,
`sum(seg.end_time - seg.start_time for seg in segs)`. -/
def duration_sum (segs : List ScriptSegment) : ℚ := (segs.map segment_duration).sum

/-- The `ScriptSegment` built by `_generate_fallback` for a kept transcript
segment: verbatim timing, `content=segment.text.strip()`, and the
enumeration indices of the surrounding loops. -/
def fallback_segment (video_idx seg_idx : ℕ) (seg : TranscriptSegment) : ScriptSegment :=
  { start_time := seg.start
    end_time := seg.end_
    content := py_strip seg.text
    video_index := (video_idx : ℤ)
    original_segment_id := (seg_idx : ℤ)
    keep := true
    reason := "Fallback selection" }

/-- Kept segments contributed by one transcription in `_generate_fallback`:
the inner `for seg_idx, segment in enumerate(transcription.segments)` loop. -/
def video_keeps (video_idx : ℕ) (transcription : TranscriptionResult) : List ScriptSegment :=
  transcription.segments.enum.filterMap (fun p =>
    if should_keep_segment_fallback p.2 then some (fallback_segment video_idx p.1 p.2) else none)

/-- The full keep-list of `_generate_fallback` before duration truncation:
the nested `for video_idx, transcription in enumerate(transcriptions)` loop. -/
def fallback_keep_list (transcriptions : List TranscriptionResult) : List ScriptSegment :=
  transcriptions.enum.flatMap (fun p => video_keeps p.1 p.2)

/-- Python `f"{n:02d}"` for the seconds part of a timestamp. -/
def two_digit (n : ℤ) : String :=
  if 0 ≤ n ∧ n < 10 then "0" ++ Int.repr n else Int.repr n

/-- The `**[m:ss]** text` line appended to the script text for a kept
segment (`minutes = int(segment.start // 60)`, `seconds = int(segment.start % 60)`). -/
def timestamp_line (seg : TranscriptSegment) : String :=
  let m := ⌊seg.start / 60⌋
  let s := ⌊seg.start - 60 * (m : ℚ)⌋
  "**[" ++ Int.repr m ++ ":" ++ two_digit s ++ "]** " ++ py_strip seg.text ++ "\n"

/-- The readable script text assembled by `_generate_fallback`
(`script_text_parts` joined): header, optional per-video headings, and one
timestamped line per kept segment. -/
def fallback_full_text (transcriptions : List TranscriptionResult) (user_prompt : String) : String :=
  let header := "# Video Script\n\n**User Request:** " ++ user_prompt ++ "\n\n"
  let parts := transcriptions.enum.flatMap (fun p =>
    (if transcriptions.length > 1 then ["\n## Video " ++ Nat.repr (p.1 + 1) ++ "\n"] else []) ++
    (p.2.segments.filterMap (fun seg =>
      if should_keep_segment_fallback seg then some (timestamp_line seg) else none)))
  String.join (header :: parts)

/-- The duration-fitting step of `_generate_fallback`: when the kept
duration exceeds 120% of target, keep only the first
`max(1, int(len(all_segments) * keep_ratio))` segments, where
`keep_ratio = (target_seconds * 1.1) / current_duration`. The floats `1.2`
and `1.1` are taken at their exact intended values, and Python `int(...)`
(truncation toward zero, applied here to a nonnegative product) is `⌊·⌋.toNat`. -/
def truncate_to_target (target_duration : ℤ) (segs : List ScriptSegment) : List ScriptSegment :=
  let target_seconds : ℚ := (target_duration : ℚ) * 60
  if segs.isEmpty then segs
  else
    let current_duration := duration_sum segs
    if current_duration > target_seconds * (12 / 10) then
      let keep_ratio : ℚ := target_seconds * (11 / 10) / current_duration
      segs.take (max 1 (⌊(segs.length : ℚ) * keep_ratio⌋.toNat))
    else segs

/-- The sum `sum(t.metadata.get('total_duration', 0) for t in transcriptions)`
accumulated by both strategies. -/
def total_original_duration (transcriptions : List TranscriptionResult) : ℚ :=
  (transcriptions.map (fun t => t.total_duration.getD 0)).sum

/-- `SmartScriptGenerator._generate_fallback`. -/
def generate_fallback (transcriptions : List TranscriptionResult) (user_prompt : String)
    (target_duration : ℤ) : GeneratedScript :=
  let total_duration := total_original_duration transcriptions
  let kept := truncate_to_target target_duration (fallback_keep_list transcriptions)
  let estimated_duration := duration_sum kept
  { full_text := fallback_full_text transcriptions user_prompt
    segments := kept
    title := "Video Script (Auto-Generated)"
    target_duration_minutes := target_duration
    estimated_duration_seconds := estimated_duration
    original_duration_seconds := total_duration
    user_prompt := user_prompt
    metadata := { video_count := transcriptions.length
                  compression_ratio :=
                    if total_duration > 0 then estimated_duration / total_duration else 0
                  fallback_used := true } }

/-- One entry of the AI response's `selected_segments` list. Each field is
an `Option`: `none` models a key that is missing or whose value fails the
`float(...)`/`int(...)`/`.strip()` conversion (a `KeyError`/`ValueError`/
`TypeError` that makes `_convert_ai_response` skip the entry). -/
structure AiSelectedSegment where
  video : Option ℤ
  segment_id : Option ℤ
  start_time : Option ℚ
  end_time : Option ℚ
  content : Option String
  reason : Option String := none
  deriving DecidableEq

/-- The parsed top-level JSON object returned by the AI call; `none` fields
model missing required keys. -/
structure AiResponse where
  title : Option String
  script_text : Option String
  selected_segments : Option (List AiSelectedSegment)
  deriving DecidableEq

/-- Conversion of one `selected_segments` entry to a `ScriptSegment`
(the `try` body of `_convert_ai_response`); `none` when any required field
is missing/invalid, in which case the entry is skipped. -/
def convert_selected (entry : AiSelectedSegment) : Option ScriptSegment :=
  match entry.start_time, entry.end_time, entry.content, entry.video, entry.segment_id with
  | some st, some en, some c, some v, some sid =>
      some { start_time := st
             end_time := en
             content := py_strip c
             video_index := v
             original_segment_id := sid
             keep := true
             reason := entry.reason.getD "Selected by AI" }
  | _, _, _, _, _ => none

/-- `SmartScriptGenerator._convert_ai_response`: a missing top-level key
raises `ValueError` (modelled as `.error`); otherwise malformed entries are
skipped and the script is assembled. -/
def convert_ai_response (ai_result : AiResponse) (transcriptions : List TranscriptionResult)
    (user_prompt : String) (target_duration : ℤ) : Except String GeneratedScript :=
  if ai_result.title.isNone then
    .error "AI response missing required key: title"
  else if ai_result.script_text.isNone then
    .error "AI response missing required key: script_text"
  else if ai_result.selected_segments.isNone then
    .error "AI response missing required key: selected_segments"
  else
    let script_segments := (ai_result.selected_segments.getD []).filterMap convert_selected
    let estimated_duration := duration_sum script_segments
    let original_duration := total_original_duration transcriptions
    .ok { full_text := ai_result.script_text.getD ""
          segments := script_segments
          title := ai_result.title.getD ""
          target_duration_minutes := target_duration
          estimated_duration_seconds := estimated_duration
          original_duration_seconds := original_duration
          user_prompt := user_prompt
          metadata := { video_count := transcriptions.length
                        compression_ratio :=
                          if original_duration > 0 then estimated_duration / original_duration
                          else 0 } }

/-- The whole AI attempt of one invocation (`_generate_with_ai`): the
external call plus JSON parsing (the ambient `ai_outcome`), then
`_convert_ai_response`. Any `.error` models a raised exception. -/
def ai_attempt (ai_outcome : Except String AiResponse) (transcriptions : List TranscriptionResult)
    (user_prompt : String) (target_duration : ℤ) : Except String GeneratedScript :=
  match ai_outcome with
  | .error e => .error e
  | .ok r => convert_ai_response r transcriptions user_prompt target_duration

/-- The `script.metadata["ai_used"] = ...` assignment in
`generate_script_from_prompt`. -/
def set_ai_used (script : GeneratedScript) (b : Bool) : GeneratedScript :=
  { script with metadata := { script.metadata with ai_used := some b } }

/-- The final `script.metadata.update({...})` of
`generate_script_from_prompt` (its modelled fields). -/
def finalize_metadata (script : GeneratedScript) (transcriptions : List TranscriptionResult) :
    GeneratedScript :=
  { script with metadata :=
      { script.metadata with
          total_original_segments := (transcriptions.map (fun t => t.segments.length)).sum
          segments_in_script := script.segments.length } }

/-- `SmartScriptGenerator.generate_script_from_prompt`. `ai_enabled` is the
generator's `self.ai_enabled`; `ai_outcome` the ambient result of the
external call (see `ai_attempt`). A `ValueError` raised by input validation
is the `.error` case; otherwise a script is always returned. -/
def generate_script_from_prompt (ai_enabled : Bool) (ai_outcome : Except String AiResponse)
    (transcriptions : List TranscriptionResult) (user_prompt : String)
    (target_duration_minutes : ℤ) : Except String GeneratedScript :=
  if transcriptions.isEmpty then .error "No transcriptions provided"
  else if py_strip user_prompt = "" then .error "User prompt cannot be empty"
  else if target_duration_minutes ≤ 0 then .error "Target duration must be positive"
  else
    .ok (finalize_metadata
      (if ai_enabled then
        match ai_attempt ai_outcome transcriptions user_prompt target_duration_minutes with
        | .ok s => set_ai_used s true
        | .error _ =>
            set_ai_used (generate_fallback transcriptions user_prompt target_duration_minutes) false
      else set_ai_used (generate_fallback transcriptions user_prompt target_duration_minutes) false)
      transcriptions)

/-- The segment dictionaries prepared for the AI by `_generate_with_ai`
(the operands of `_select_important_segments_intelligently`). -/
structure SegDict where
  video : ℕ
  segment_id : ℕ
  start : ℚ
  end_ : ℚ
  text : String
  duration : ℚ
  content_type : String
  deriving DecidableEq

/-- `critical_types` of `_boost_important_content_types`. -/
def critical_types : List String := ["main_point", "topic_introduction", "conclusion"]

/-- `filler_types` of `_boost_important_content_types`. -/
def filler_types : List String := ["greeting", "filler"]

/-- The inner matching loop of `_boost_important_content_types`: the first
index of `all_segments` whose `text` and `start` equal the selected
segment's (Python breaks at the first match). -/
def first_matching_index (all_segments : List SegDict) (seg : SegDict) : Option ℕ :=
  all_segments.findIdx? (fun orig => seg.text == orig.text && seg.start == orig.start)

/-- `SmartScriptGenerator._boost_important_content_types`: replace up to
`min(len(missing_critical), len(replaceable_indices), max_segments // 4)`
filler-typed selected segments with critical segments missing from the
selection, in place by position. -/
def boost_important_content_types (current_selection : List SegDict)
    (all_segments : List SegDict) (max_segments : ℕ) : List SegDict :=
  let selected_indices := current_selection.filterMap (first_matching_index all_segments)
  let missing_critical := all_segments.enum.filter
    (fun p => !(selected_indices.contains p.1) && critical_types.contains p.2.content_type)
  let replaceable_indices := current_selection.enum.filterMap
    (fun p => if filler_types.contains p.2.content_type then some p.1 else none)
  let max_replacements :=
    min (min missing_critical.length replaceable_indices.length) (max_segments / 4)
  ((replaceable_indices.take max_replacements).zip
      ((missing_critical.take max_replacements).map (fun p => p.2))).foldl
    (fun cur p => cur.set p.1 p.2) current_selection

/-- `segment_index = int(i * step_size)` with `step_size = total/max` as an
exact rational (Python `int(...)` of a nonnegative float is the floor). -/
def stride_index (total_segments max_segments i : ℕ) : ℕ :=
  (⌊(i : ℚ) * ((total_segments : ℚ) / (max_segments : ℚ))⌋).toNat

/-- The `selected_segments[0] = all_segments[0]`,
`selected_segments[-1] = all_segments[-1]` assignments of
`_select_important_segments_intelligently`. -/
def set_first_and_last (selected : List SegDict) (all_segments : List SegDict) : List SegDict :=
  match all_segments.head?, all_segments.getLast? with
  | some first_seg, some last_seg => (selected.set 0 first_seg).set (selected.length - 1) last_seg
  | _, _ => selected

/-- `SmartScriptGenerator._select_important_segments_intelligently`. -/
def select_important_segments_intelligently (all_segments : List SegDict)
    (max_segments : ℕ) : List SegDict :=
  if all_segments.length ≤ max_segments then all_segments
  else
    let total_segments := all_segments.length
    let selected0 := (List.range max_segments).filterMap
      (fun i => all_segments[stride_index total_segments max_segments i]?)
    let selected1 :=
      if all_segments.length > 2 ∧ max_segments > 2 then set_first_and_last selected0 all_segments
      else selected0
    boost_important_content_types selected1 all_segments max_segments

/-- The segments of a pipeline result (`[]` for a validation error); lets
closed statements project through the `Except`. -/
def result_segments : Except String GeneratedScript → List ScriptSegment
  | .ok s => s.segments
  | .error _ => []

/-- The script of a pipeline result, as an `Option`. -/
def result_script : Except String GeneratedScript → Option GeneratedScript
  | .ok s => some s
  | .error _ => none

/-- The transcript text referenced by an output segment's
`(video_index, original_segment_id)` pair, when both indices are in range. -/
def referenced_text (transcriptions : List TranscriptionResult) (s : ScriptSegment) :
    Option String :=
  (transcriptions[s.video_index.toNat]?).bind
    (fun t => (t.segments[s.original_segment_id.toNat]?).map (fun seg => seg.text))

/-- The `(source index, start)` output ordering relation of the spec's
ordering invariant (lexicographic: strictly smaller source, or same source
and nondecreasing start). -/
def seg_order (a b : ScriptSegment) : Prop :=
  a.video_index < b.video_index ∨ (a.video_index = b.video_index ∧ a.start_time ≤ b.start_time)

instance : DecidableRel seg_order := fun a b => by
  unfold seg_order; infer_instance

/-- Concrete inputs used by witnesses and counterexamples. `seg_long` and
`seg_tail` both pass the keep filter (keyword "important"); their durations
are 100s and 1s. -/
def seg_long : TranscriptSegment :=
  { start := 0, end_ := 100, text := "this is important content one" }

/-- Second segment of the overshoot example (duration 1s). -/
def seg_tail : TranscriptSegment :=
  { start := 100, end_ := 101, text := "this is important content two" }

/-- Single transcription whose kept duration (101s) exceeds 120% of a
one-minute target. -/
def ts_over : List TranscriptionResult :=
  [{ segments := [seg_long, seg_tail], total_duration := some 101 }]

/-- A segment whose text is shorter than 10 characters: rejected by the
fallback keep filter. -/
def seg_hi : TranscriptSegment := { start := 0, end_ := 1, text := "hi" }

/-- Single transcription none of whose segments pass the keep filter. -/
def ts_hi : List TranscriptionResult :=
  [{ segments := [seg_hi], total_duration := some 1 }]

/-- A kept segment whose text carries leading and trailing whitespace. -/
def seg_pad : TranscriptSegment :=
  { start := 0, end_ := 5, text := " this is important content " }

/-- Single transcription holding `seg_pad`. -/
def ts_pad : List TranscriptionResult :=
  [{ segments := [seg_pad], total_duration := some 5 }]

/-- A high-filler-density segment ending in a question mark
(filler substrings "um", "like", "so" against 4 words: ratio 3/4 > 0.3). -/
def seg_question_filler : TranscriptSegment :=
  { start := 0, end_ := 1, text := "um um so like?" }

/-- A low-filler-density question segment. -/
def seg_question : TranscriptSegment :=
  { start := 0, end_ := 1, text := "what is the main plan today?" }

/-- AI selected-segment entry starting at t=10s, listed first. -/
def ai_entry_late : AiSelectedSegment :=
  { video := some 0
    segment_id := some 0
    start_time := some 10
    end_time := some 11
    content := some "b"
    reason := some "r" }

/-- AI selected-segment entry starting at t=5s, listed second. -/
def ai_entry_early : AiSelectedSegment :=
  { video := some 0
    segment_id := some 1
    start_time := some 5
    end_time := some 6
    content := some "a"
    reason := some "r" }

/-- A well-formed AI response listing its segments in decreasing start
order. -/
def ai_resp_unsorted : AiResponse :=
  { title := some "T"
    script_text := some "S"
    selected_segments := some [ai_entry_late, ai_entry_early] }

/-- The converted form of `ai_entry_late`. -/
def late_seg : ScriptSegment :=
  { start_time := 10
    end_time := 11
    content := "b"
    video_index := 0
    original_segment_id := 0
    keep := true
    reason := "r" }

/-- The converted form of `ai_entry_early`. -/
def early_seg : ScriptSegment :=
  { start_time := 5
    end_time := 6
    content := "a"
    video_index := 0
    original_segment_id := 1
    keep := true
    reason := "r" }

/-- An AI response missing the required `title` key. -/
def ai_missing_title : AiResponse :=
  { title := none, script_text := some "s", selected_segments := some [] }

/-- Sampler pool element with `content_type = "filler"` at position 0. -/
def p0 : SegDict :=
  { video := 0
    segment_id := 0
    start := 0
    end_ := 0
    text := "t0"
    duration := 0
    content_type := "filler" }

/-- Neutral sampler pool element. -/
def p1 : SegDict :=
  { video := 0
    segment_id := 1
    start := 0
    end_ := 0
    text := "t1"
    duration := 0
    content_type := "unknown" }

/-- Neutral sampler pool element. -/
def p2 : SegDict :=
  { video := 0
    segment_id := 2
    start := 0
    end_ := 0
    text := "t2"
    duration := 0
    content_type := "unknown" }

/-- Sampler pool element with `content_type = "main_point"`; at stride
K=4 over 5 elements it is sampled but then displaced by the first/last
rule, making it "missing critical" for the boost step. -/
def p3 : SegDict :=
  { video := 0
    segment_id := 3
    start := 0
    end_ := 0
    text := "t3"
    duration := 0
    content_type := "main_point" }

/-- Neutral sampler pool element. -/
def p4 : SegDict :=
  { video := 0
    segment_id := 4
    start := 0
    end_ := 0
    text := "t4"
    duration := 0
    content_type := "unknown" }

/-- Five-element sampler pool: filler first, one missing-critical segment. -/
def pool5 : List SegDict := [p0, p1, p2, p3, p4]

/-- Two-element pool (below any sampling budget). -/
def pool2 : List SegDict := [p1, p2]

/-- Neutral pool element for the sampler witness. -/
def q0 : SegDict :=
  { video := 0
    segment_id := 0
    start := 0
    end_ := 0
    text := "u0"
    duration := 0
    content_type := "unknown" }

/-- Neutral pool element for the sampler witness. -/
def q1 : SegDict :=
  { video := 0
    segment_id := 1
    start := 0
    end_ := 0
    text := "u1"
    duration := 0
    content_type := "unknown" }

/-- Neutral pool element for the sampler witness. -/
def q2 : SegDict :=
  { video := 0
    segment_id := 2
    start := 0
    end_ := 0
    text := "u2"
    duration := 0
    content_type := "unknown" }

/-- Neutral pool element for the sampler witness. -/
def q3 : SegDict :=
  { video := 0
    segment_id := 3
    start := 0
    end_ := 0
    text := "u3"
    duration := 0
    content_type := "unknown" }

/-- Four-element all-unknown pool for the sampler witness. -/
def pool4u : List SegDict := [q0, q1, q2, q3]

/-- The second component of an enumerated pair is a member of the list. -/
theorem snd_mem_of_mem_enum {α : Type _} {p : ℕ × α} {l : List α} (h : p ∈ l.enum) : p.2 ∈ l := by
  rw [← List.enum_map_snd l]
  exact List.mem_map_of_mem _ h

/-- On valid inputs with the AI disabled, the pipeline returns the fallback
script with `ai_used := false` and updated count metadata. -/
theorem generate_fallback_path (o : Except String AiResponse) (ts : List TranscriptionResult)
    (p : String) (d : ℤ) (h1 : ts ≠ []) (h2 : py_strip p ≠ "") (h3 : 0 < d) :
    generate_script_from_prompt false o ts p d =
      .ok (finalize_metadata (set_ai_used (generate_fallback ts p d) false) ts) := by
  unfold generate_script_from_prompt
  rw [if_neg (by simpa [List.isEmpty_iff] using h1), if_neg h2, if_neg (by omega)]
  rfl

/-- On valid inputs with the AI enabled and a successful attempt, the
pipeline returns the converted AI script with `ai_used := true`. -/
theorem generate_ai_path (o : Except String AiResponse) (ts : List TranscriptionResult)
    (p : String) (d : ℤ) (s : GeneratedScript) (h1 : ts ≠ []) (h2 : py_strip p ≠ "")
    (h3 : 0 < d) (hok : ai_attempt o ts p d = .ok s) :
    generate_script_from_prompt true o ts p d =
      .ok (finalize_metadata (set_ai_used s true) ts) := by
  unfold generate_script_from_prompt
  rw [if_neg (by simpa [List.isEmpty_iff] using h1), if_neg h2, if_neg (by omega), hok]
  rfl

/-- The fallback keep-list is nonempty exactly when some input segment
passes the keep filter. -/
theorem keep_list_ne_nil_iff (ts : List TranscriptionResult) :
    fallback_keep_list ts ≠ [] ↔
      ∃ t ∈ ts, ∃ seg ∈ t.segments, should_keep_segment_fallback seg = true := by
  constructor
  · intro h
    obtain ⟨x, hx⟩ := List.exists_mem_of_ne_nil _ h
    rw [fallback_keep_list, List.mem_flatMap] at hx
    obtain ⟨p, hp, hxp⟩ := hx
    rw [video_keeps, List.mem_filterMap] at hxp
    obtain ⟨q, hq, hfq⟩ := hxp
    by_cases hk : should_keep_segment_fallback q.2
    · exact ⟨p.2, snd_mem_of_mem_enum hp, q.2, snd_mem_of_mem_enum hq, hk⟩
    · simp [hk] at hfq
  · rintro ⟨t, ht, seg, hseg, hkeep⟩
    obtain ⟨vi, hvi⟩ := List.getElem?_of_mem ht
    obtain ⟨si, hsi⟩ := List.getElem?_of_mem hseg
    apply List.ne_nil_of_mem (a := fallback_segment vi si seg)
    rw [fallback_keep_list, List.mem_flatMap]
    refine ⟨(vi, t), List.mk_mem_enum_iff_getElem?.mpr hvi, ?_⟩
    rw [video_keeps, List.mem_filterMap]
    exact ⟨(si, seg), List.mk_mem_enum_iff_getElem?.mpr hsi, by simp [hkeep]⟩

/-- Duration truncation never empties a nonempty keep-list (and cannot fill
an empty one): `max(1, ...)` keeps at least one segment. -/
theorem truncate_ne_nil_iff (d : ℤ) (l : List ScriptSegment) :
    truncate_to_target d l ≠ [] ↔ l ≠ [] := by
  unfold truncate_to_target
  by_cases h : l.isEmpty
  · simp [h, List.isEmpty_iff.mp h]
  · have hl : l ≠ [] := by simpa [List.isEmpty_iff] using h
    simp only [h, Bool.false_eq_true, if_false]
    split_ifs with h2
    · simp [List.take_eq_nil_iff, hl]
    · simp [hl]

/-- Duration truncation returns a prefix: always a sublist of its input. -/
theorem truncate_sublist (d : ℤ) (l : List ScriptSegment) :
    (truncate_to_target d l).Sublist l := by
  unfold truncate_to_target
  simp only []
  split_ifs
  · exact List.Sublist.refl l
  · exact List.take_sublist _ l
  · exact List.Sublist.refl l

/-- Enumeration indices are strictly increasing along the list. -/
theorem pairwise_fst_lt_enum {α : Type _} (l : List α) :
    l.enum.Pairwise (fun p q => p.1 < q.1) := by
  have h := List.pairwise_lt_range l.length
  rw [← List.enum_map_fst] at h
  exact List.pairwise_map.mp h

/-- A pairwise relation on a list lifts to the second components of its
enumeration. -/
theorem pairwise_snd_enum {α : Type _} {R : α → α → Prop} {l : List α} (h : l.Pairwise R) :
    l.enum.Pairwise (fun p q => R p.2 q.2) := by
  rw [← List.enum_map_snd l] at h
  exact List.pairwise_map.mp h

/-- Every segment emitted for video `vi` carries `video_index = vi`. -/
theorem video_index_of_mem_video_keeps {x : ScriptSegment} {vi : ℕ} {t : TranscriptionResult}
    (h : x ∈ video_keeps vi t) : x.video_index = (vi : ℤ) := by
  rw [video_keeps, List.mem_filterMap] at h
  obtain ⟨q, hq, hfq⟩ := h
  by_cases hk : should_keep_segment_fallback q.2
  · rw [if_pos hk] at hfq
    injection hfq with hfq
    rw [← hfq]
    rfl
  · simp [hk] at hfq

/-- Within one video, kept segments inherit the transcript's start order. -/
theorem video_keeps_sorted (vi : ℕ) (t : TranscriptionResult)
    (h : t.segments.Pairwise (fun a b => a.start ≤ b.start)) :
    (video_keeps vi t).Pairwise seg_order := by
  unfold video_keeps
  refine List.Pairwise.filterMap _ ?_ (pairwise_snd_enum h)
  intro a b hr x hx y hy
  by_cases hka : should_keep_segment_fallback a.2
  · by_cases hkb : should_keep_segment_fallback b.2
    · rw [if_pos hka] at hx
      rw [if_pos hkb] at hy
      rw [Option.mem_some_iff] at hx hy
      subst hx; subst hy
      right
      exact ⟨rfl, hr⟩
    · simp [hkb] at hy
  · simp [hka] at hx

/-- The whole fallback keep-list is sorted by `(video_index, start_time)`
whenever every input transcript is sorted by `start`. -/
theorem keep_list_sorted (ts : List TranscriptionResult)
    (h : ∀ t ∈ ts, t.segments.Pairwise (fun a b => a.start ≤ b.start)) :
    (fallback_keep_list ts).Pairwise seg_order := by
  rw [fallback_keep_list, List.flatMap_def]
  refine List.pairwise_flatten.mpr ⟨?_, ?_⟩
  · intro l hl
    rw [List.mem_map] at hl
    obtain ⟨p, hp, rfl⟩ := hl
    exact video_keeps_sorted p.1 p.2 (h p.2 (snd_mem_of_mem_enum hp))
  · rw [List.pairwise_map]
    refine (pairwise_fst_lt_enum ts).imp ?_
    intro p q hpq x hx y hy
    left
    rw [video_index_of_mem_video_keeps hx, video_index_of_mem_video_keeps hy]
    exact_mod_cast hpq

/-- `filterMap` preserves length when the function is total on the list. -/
theorem length_filterMap_of_isSome {α β : Type _} (f : α → Option β) :
    ∀ l : List α, (∀ a ∈ l, (f a).isSome) → (l.filterMap f).length = l.length
  | [], _ => rfl
  | a :: l, h => by
      obtain ⟨b, hb⟩ := Option.isSome_iff_exists.mp (h a (.head l))
      rw [List.filterMap_cons, hb]
      simp only [List.length_cons]
      rw [length_filterMap_of_isSome f l (fun x hx => h x (.tail a hx))]

/-- The sampled index `int(i * n/K)` stays in bounds for `i < K < n`. -/
theorem stride_index_lt (n K i : ℕ) (hn : K < n) (hi : i < K) : stride_index n K i < n := by
  unfold stride_index
  have hKpos : 0 < K := by omega
  have hKQ : (0:ℚ) < (K:ℚ) := by exact_mod_cast hKpos
  have hnQ : (0:ℚ) < (n:ℚ) := by exact_mod_cast (by omega : 0 < n)
  have hstep : (0:ℚ) < (n:ℚ) / (K:ℚ) := div_pos hnQ hKQ
  have hi2 : (i:ℚ) + 1 ≤ (K:ℚ) := by exact_mod_cast hi
  have hval : (i:ℚ) * ((n:ℚ) / (K:ℚ)) < (n:ℚ) := by
    have h1 : (i:ℚ) * ((n:ℚ) / (K:ℚ)) ≤ ((K:ℚ) - 1) * ((n:ℚ) / (K:ℚ)) :=
      mul_le_mul_of_nonneg_right (by linarith) (le_of_lt hstep)
    have h2 : ((K:ℚ) - 1) * ((n:ℚ) / (K:ℚ)) = (n:ℚ) - (n:ℚ) / (K:ℚ) := by
      field_simp
      ring
    linarith
  have hnonneg : 0 ≤ ⌊(i:ℚ) * ((n:ℚ) / (K:ℚ))⌋ := Int.floor_nonneg.mpr (by positivity)
  rw [Int.toNat_lt hnonneg]
  exact Int.floor_lt.mpr (by exact_mod_cast hval)

/-- Elements picked by the stride sampler come from the pool. -/
theorem mem_of_mem_stride_sel {pool : List SegDict} {K : ℕ} {x : SegDict}
    (hx : x ∈ (List.range K).filterMap (fun i => pool[stride_index pool.length K i]?)) :
    x ∈ pool := by
  rw [List.mem_filterMap] at hx
  obtain ⟨i, _, hi⟩ := hx
  obtain ⟨h, heq⟩ := List.getElem?_eq_some_iff.mp hi
  rw [← heq]
  exact List.getElem_mem h

/-- With no filler-typed segment in the selection, the boost step finds
nothing replaceable and is the identity. -/
theorem boost_id_of_no_filler (cur alls : List SegDict) (K : ℕ)
    (h : ∀ s ∈ cur, filler_types.contains s.content_type = false) :
    boost_important_content_types cur alls K = cur := by
  unfold boost_important_content_types
  have hrep : cur.enum.filterMap
      (fun p => if filler_types.contains p.2.content_type then some p.1 else none) = [] := by
    rw [List.filterMap_eq_nil_iff]
    intro p hp
    simpa using h p.2 (snd_mem_of_mem_enum hp)
  rw [hrep]
  simp

/-- Evaluation of the keep filter on the overshoot example: both segments
pass. -/
theorem ts_over_keep_list : fallback_keep_list ts_over =
    [fallback_segment 0 0 seg_long, fallback_segment 0 1 seg_tail] := by
  simp [fallback_keep_list, ts_over, video_keeps, List.enum, List.enumFrom, List.filterMap_cons,
    (by decide : should_keep_segment_fallback seg_long = true),
    (by decide : should_keep_segment_fallback seg_tail = true)]

/-- On the overshoot example with a one-minute target, the truncation keeps
only the first (100-second) segment. -/
theorem ts_over_segments :
    (generate_fallback ts_over "p" 1).segments = [fallback_segment 0 0 seg_long] := by
  show truncate_to_target 1 (fallback_keep_list ts_over) = _
  rw [ts_over_keep_list]
  unfold truncate_to_target
  norm_num [duration_sum, segment_duration, fallback_segment, seg_long, seg_tail]

/-- On the padded-text example the single kept segment survives truncation. -/
theorem ts_pad_segments :
    (generate_fallback ts_pad "p" 10).segments = [fallback_segment 0 0 seg_pad] := by
  have hkl : fallback_keep_list ts_pad = [fallback_segment 0 0 seg_pad] := by
    simp [fallback_keep_list, ts_pad, video_keeps, List.enum, List.enumFrom, List.filterMap_cons,
      (by decide : should_keep_segment_fallback seg_pad = true)]
  show truncate_to_target 10 (fallback_keep_list ts_pad) = _
  rw [hkl]
  unfold truncate_to_target
  norm_num [duration_sum, segment_duration, fallback_segment, seg_pad]

/-- Claim C1 (amended): in the fallback, whenever the total kept duration
exceeds 120% of the target, the keep-list is truncated to its first
`max(1, int(n * (1.1 * target) / current))` segments — a count-proportional
cut, not the smallest prefix within 110% of target — and the reported
estimated duration is the duration of exactly that prefix. The 1.1× bound
of the original claim is not guaranteed (see the counterexample). -/
theorem C1_fallback_truncation (ts : List TranscriptionResult) (p : String) (d : ℤ)
    (hover : duration_sum (fallback_keep_list ts) > (d : ℚ) * 60 * (12 / 10)) :
    (generate_fallback ts p d).segments =
      (fallback_keep_list ts).take (max 1
        (⌊((fallback_keep_list ts).length : ℚ) *
            ((d : ℚ) * 60 * (11 / 10) / duration_sum (fallback_keep_list ts))⌋.toNat)) ∧
    (generate_fallback ts p d).estimated_duration_seconds =
      duration_sum ((generate_fallback ts p d).segments) := by
  constructor
  · show truncate_to_target d (fallback_keep_list ts) = _
    unfold truncate_to_target
    by_cases hnil : (fallback_keep_list ts).isEmpty
    · rw [List.isEmpty_iff.mp hnil]
      simp
    · simp only [hnil, Bool.false_eq_true, if_false]
      rw [if_pos hover]
  · rfl

/-- Claim C1 witness: the overshoot example (kept durations 100s and 1s,
one-minute target) triggers the truncation branch. -/
theorem C1_fallback_truncation_witness :
    (generate_fallback ts_over "p" 1).segments =
      (fallback_keep_list ts_over).take (max 1
        (⌊((fallback_keep_list ts_over).length : ℚ) *
            (((1 : ℤ) : ℚ) * 60 * (11 / 10) / duration_sum (fallback_keep_list ts_over))⌋.toNat)) ∧
    (generate_fallback ts_over "p" 1).estimated_duration_seconds =
      duration_sum ((generate_fallback ts_over "p" 1).segments) :=
  C1_fallback_truncation ts_over "p" 1 (by
    rw [ts_over_keep_list]
    norm_num [duration_sum, segment_duration, fallback_segment, seg_long, seg_tail])

/-- Claim C1 counterexample: a two-segment pool (durations 100s and 1s),
one-minute target, fallback path. The returned estimated duration is 100s,
which exceeds 1.1 × 60s = 66s, refuting the claimed duration bound. -/
theorem C1_duration_bound_counterexample :
    (result_script (generate_script_from_prompt false (.error "") ts_over "p" 1)).map
        (fun g => g.estimated_duration_seconds) = some 100 ∧
    ¬ ((100 : ℚ) ≤ (11 / 10) * (((1 : ℤ) : ℚ) * 60)) ∧
    (ts_over.map (fun t => t.segments.length)).sum = 2 ∧
    (result_script (generate_script_from_prompt false (.error "") ts_over "p" 1)).map
        (fun g => g.metadata.fallback_used) = some true := by
  rw [generate_fallback_path (.error "") ts_over "p" 1 (by decide) (by decide) (by decide)]
  refine ⟨?_, by norm_num, by decide, rfl⟩
  have hest : (generate_fallback ts_over "p" 1).estimated_duration_seconds =
      duration_sum [fallback_segment 0 0 seg_long] := by
    show duration_sum (truncate_to_target 1 (fallback_keep_list ts_over)) = _
    rw [show truncate_to_target 1 (fallback_keep_list ts_over) =
      [fallback_segment 0 0 seg_long] from ts_over_segments]
  show some (generate_fallback ts_over "p" 1).estimated_duration_seconds = some 100
  rw [hest]
  norm_num [duration_sum, segment_duration, fallback_segment, seg_long]

/-- Claim C2 (amended): on valid inputs the fallback path returns a script
whose segment list is nonempty exactly when some input segment passes the
keep filter; when none passes, the returned list is empty — there is no
force-keep of the first candidate in the code. -/
theorem C2_nonempty (o : Except String AiResponse) (ts : List TranscriptionResult)
    (p : String) (d : ℤ) (h1 : ts ≠ []) (h2 : py_strip p ≠ "") (h3 : 0 < d) :
    ∃ g, generate_script_from_prompt false o ts p d = .ok g ∧
      (g.segments ≠ [] ↔
        ∃ t ∈ ts, ∃ seg ∈ t.segments, should_keep_segment_fallback seg = true) := by
  refine ⟨_, generate_fallback_path o ts p d h1 h2 h3, ?_⟩
  have hseg : (finalize_metadata (set_ai_used (generate_fallback ts p d) false) ts).segments =
      truncate_to_target d (fallback_keep_list ts) := rfl
  rw [hseg, truncate_ne_nil_iff, keep_list_ne_nil_iff]

/-- Claim C2 witness: on the overshoot example at least one segment passes,
so the returned segment list is nonempty. -/
theorem C2_nonempty_witness :
    ∃ g, generate_script_from_prompt false (.error "") ts_over "p" 1 = .ok g ∧
      (g.segments ≠ [] ↔
        ∃ t ∈ ts_over, ∃ seg ∈ t.segments, should_keep_segment_fallback seg = true) :=
  C2_nonempty (.error "") ts_over "p" 1 (by decide) (by decide) (by decide)

/-- Claim C2 counterexample: a valid input (one transcription, one segment,
nonempty prompt, positive target) whose only segment fails the keep filter.
The pipeline succeeds but returns an empty segment list: no force-keep. -/
theorem C2_nonempty_counterexample :
    (generate_script_from_prompt false (.error "") ts_hi "p" 1).isOk = true ∧
    result_segments (generate_script_from_prompt false (.error "") ts_hi "p" 1) = [] ∧
    ts_hi ≠ [] ∧ (ts_hi.map (fun t => t.segments.length)).sum = 1 := by
  rw [generate_fallback_path (.error "") ts_hi "p" 1 (by decide) (by decide) (by decide)]
  have hkl : fallback_keep_list ts_hi = [] := by
    simp [fallback_keep_list, ts_hi, video_keeps, List.enum, List.enumFrom, List.filterMap_cons,
      (by decide : should_keep_segment_fallback seg_hi = false)]
  refine ⟨rfl, ?_, by decide, by decide⟩
  simp [result_segments, finalize_metadata, set_ai_used, generate_fallback, truncate_to_target, hkl]

/-- Claim C3 (amended): a candidate of sufficient length that ends with a
question mark or contains an importance keyword is kept PROVIDED its
filler-word density does not exceed 30%: the density check runs first and
rejects regardless of those signals (see the counterexample). -/
theorem C3_keyword_keep (seg : TranscriptSegment)
    (hlen : 10 ≤ py_len (py_strip (py_lower seg.text)))
    (hfill : 10 * filler_hits (py_strip (py_lower seg.text)) ≤
      3 * max 1 (word_count (py_strip (py_lower seg.text))))
    (hsig : py_endswith_qm (py_strip (py_lower seg.text)) = true ∨
      importance_keywords.any (fun w => py_in w (py_strip (py_lower seg.text))) = true) :
    should_keep_segment_fallback seg = true := by
  unfold should_keep_segment_fallback
  simp only []
  split_ifs with h1 h2 h3 h4 h5
  · omega
  · omega
  · rfl
  · rfl
  · rfl
  · rcases hsig with h | h
    · exact absurd h h3
    · exact absurd h h4

/-- Claim C3 witness: a clean question segment is kept. -/
theorem C3_keyword_keep_witness : should_keep_segment_fallback seg_question = true :=
  C3_keyword_keep seg_question (by decide) (by decide) (Or.inl (by decide))

/-- Claim C3 counterexample: "um um so like?" has length ≥ 10 and ends with
a question mark, yet is rejected — its filler density (3 stoplist hits over
4 words) exceeds 30% and the density check precedes the question-mark rule. -/
theorem C3_filler_precedence_counterexample :
    should_keep_segment_fallback seg_question_filler = false ∧
    py_endswith_qm (py_strip (py_lower seg_question_filler.text)) = true ∧
    10 ≤ py_len (py_strip (py_lower seg_question_filler.text)) := by
  decide

/-- Claim C4 (confirmed): on valid inputs, when the AI attempt fails — it
raises, or its response is missing a required top-level key such as
`title` — the pipeline does not propagate the failure: it returns the
deterministic fallback script from the same call, with
`metadata["ai_used"] = false`. -/
theorem C4_ai_failure_fallback (o : Except String AiResponse) (ts : List TranscriptionResult)
    (p : String) (d : ℤ) (h1 : ts ≠ []) (h2 : py_strip p ≠ "") (h3 : 0 < d)
    (hfail : (ai_attempt o ts p d).isOk = false) :
    generate_script_from_prompt true o ts p d =
      .ok (finalize_metadata (set_ai_used (generate_fallback ts p d) false) ts) ∧
    (∀ r : AiResponse, r.title = none → (ai_attempt (.ok r) ts p d).isOk = false) ∧
    (∀ g, generate_script_from_prompt true o ts p d = .ok g →
      g.metadata.ai_used = some false ∧ g.segments = (generate_fallback ts p d).segments) := by
  have hmain : generate_script_from_prompt true o ts p d =
      .ok (finalize_metadata (set_ai_used (generate_fallback ts p d) false) ts) := by
    unfold generate_script_from_prompt
    rw [if_neg (by simpa [List.isEmpty_iff] using h1), if_neg h2, if_neg (by omega)]
    cases hai : ai_attempt o ts p d with
    | ok s => rw [hai] at hfail; simp [Except.isOk, Except.toBool] at hfail
    | error e => rfl
  refine ⟨hmain, ?_, ?_⟩
  · intro r hr
    simp [ai_attempt, convert_ai_response, hr, Except.isOk, Except.toBool]
  · intro g hg
    rw [hmain] at hg
    injection hg with hg
    subst hg
    exact ⟨rfl, rfl⟩

/-- Claim C4 witness: a response missing `title`, on the overshoot input. -/
theorem C4_ai_failure_fallback_witness :
    generate_script_from_prompt true (.ok ai_missing_title) ts_over "p" 1 =
      .ok (finalize_metadata (set_ai_used (generate_fallback ts_over "p" 1) false) ts_over) ∧
    (∀ r : AiResponse, r.title = none → (ai_attempt (.ok r) ts_over "p" 1).isOk = false) ∧
    (∀ g, generate_script_from_prompt true (.ok ai_missing_title) ts_over "p" 1 = .ok g →
      g.metadata.ai_used = some false ∧ g.segments = (generate_fallback ts_over "p" 1).segments) :=
  C4_ai_failure_fallback (.ok ai_missing_title) ts_over "p" 1
    (by decide) (by decide) (by decide) (by decide)

/-- Claim C5 (confirmed): the pipeline raises its input-validation
`ValueError` exactly when the transcript list is empty, the prompt is
empty/whitespace-only, or the target duration is nonpositive; and on such
inputs the result is the same whatever the AI capability or outcome — the
error is raised before any strategy runs. -/
theorem C5_input_validation (e e2 : Bool) (o o2 : Except String AiResponse)
    (ts : List TranscriptionResult) (p : String) (d : ℤ) :
    ((generate_script_from_prompt e o ts p d).isOk = false ↔
      (ts = [] ∨ py_strip p = "" ∨ d ≤ 0)) ∧
    ((ts = [] ∨ py_strip p = "" ∨ d ≤ 0) →
      generate_script_from_prompt e o ts p d = generate_script_from_prompt e2 o2 ts p d) := by
  constructor
  · constructor
    · intro h
      unfold generate_script_from_prompt at h
      by_cases h1 : ts.isEmpty
      · exact .inl (List.isEmpty_iff.mp h1)
      · rw [if_neg h1] at h
        by_cases h2 : py_strip p = ""
        · exact .inr (.inl h2)
        · rw [if_neg h2] at h
          by_cases h3 : d ≤ 0
          · exact .inr (.inr h3)
          · rw [if_neg h3] at h
            simp [Except.isOk, Except.toBool] at h
    · intro h
      unfold generate_script_from_prompt
      rcases h with h | h | h
      · rw [if_pos (List.isEmpty_iff.mpr h)]; rfl
      · by_cases h1 : ts.isEmpty
        · rw [if_pos h1]; rfl
        · rw [if_neg h1, if_pos h]; rfl
      · by_cases h1 : ts.isEmpty
        · rw [if_pos h1]; rfl
        · rw [if_neg h1]
          by_cases h2 : py_strip p = ""
          · rw [if_pos h2]; rfl
          · rw [if_neg h2, if_pos h]; rfl
  · intro h
    unfold generate_script_from_prompt
    rcases h with h | h | h
    · rw [if_pos (List.isEmpty_iff.mpr h), if_pos (List.isEmpty_iff.mpr h)]
    · by_cases h1 : ts.isEmpty <;> simp [h1, h]
    · by_cases h1 : ts.isEmpty <;> by_cases h2 : py_strip p = "" <;> simp [h1, h2, h]

/-- Claim C5 witness: an empty transcript list is rejected. -/
theorem C5_input_validation_witness :
    (generate_script_from_prompt true (.error "") ([] : List TranscriptionResult) "p" 5).isOk =
      false :=
  (C5_input_validation true true (.error "") (.error "") [] "p" 5).1.mpr (Or.inl rfl)

/-- Claim C6 (confirmed): a pool no larger than the sampling budget is
returned unchanged — identical elements in identical order, before any
striding or boosting runs. -/
theorem C6_sampler_identity (pool : List SegDict) (K : ℕ) (h : pool.length ≤ K) :
    select_important_segments_intelligently pool K = pool := by
  unfold select_important_segments_intelligently
  rw [if_pos h]

/-- Claim C6 witness: a two-element pool under budget 50. -/
theorem C6_sampler_identity_witness :
    select_important_segments_intelligently pool2 50 = pool2 :=
  C6_sampler_identity pool2 50 (by decide)

/-- Claim C7 (amended): for a pool larger than the budget `K` (with
`K > 2`), the sampler returns exactly `K` candidates, and — provided no
pool segment carries a low-value content type ("greeting"/"filler"), so the
boost step performs no replacement — the first and the last candidate of
the pool are among them, the sample being the uniform-stride selection with
its ends pinned. When the boost step does fire it may displace the first
candidate (see the counterexample). -/
theorem C7_sampler_coverage (pool : List SegDict) (K : ℕ) (hK : 2 < K)
    (hlen : K < pool.length)
    (hnf : ∀ s ∈ pool, filler_types.contains s.content_type = false) :
    (select_important_segments_intelligently pool K).length = K ∧
    (∀ a, pool.head? = some a → a ∈ select_important_segments_intelligently pool K) ∧
    (∀ z, pool.getLast? = some z → z ∈ select_important_segments_intelligently pool K) := by
  have hne : pool ≠ [] := by
    intro hnil
    rw [hnil] at hlen
    simp at hlen
  have ha := List.head?_eq_head hne
  have hz := List.getLast?_eq_getLast pool hne
  unfold select_important_segments_intelligently
  rw [if_neg (by omega)]
  simp only []
  set sel0 := (List.range K).filterMap
    (fun i => pool[stride_index pool.length K i]?) with hsel0
  have hlen0 : sel0.length = K := by
    rw [hsel0]
    rw [length_filterMap_of_isSome _ _ ?_, List.length_range]
    intro i hi
    rw [List.mem_range] at hi
    rw [List.getElem?_eq_getElem (stride_index_lt pool.length K i hlen hi)]
    rfl
  rw [if_pos ⟨by omega, hK⟩]
  rw [set_first_and_last, ha, hz]
  set sfl := (sel0.set 0 (pool.head hne)).set (sel0.length - 1) (pool.getLast hne) with hsfl
  have hlen1 : sfl.length = K := by
    rw [hsfl]
    simp [List.length_set, hlen0]
  have hmem_sfl : ∀ x ∈ sfl, x ∈ pool := by
    intro x hx
    rw [hsfl] at hx
    rcases List.mem_or_eq_of_mem_set hx with hx2 | rfl
    · rcases List.mem_or_eq_of_mem_set hx2 with hx3 | rfl
      · exact mem_of_mem_stride_sel (hsel0 ▸ hx3)
      · exact List.head_mem hne
    · exact List.getLast_mem hne
  have hboost : boost_important_content_types sfl pool K = sfl :=
    boost_id_of_no_filler sfl pool K (fun s hs => hnf s (hmem_sfl s hs))
  rw [hboost]
  refine ⟨hlen1, ?_, ?_⟩
  · intro a haa
    injection haa with haa
    subst haa
    have hlt : 0 < sfl.length := by omega
    have h0 : sfl[0] = pool.head hne :=
      (List.getElem_set_ne (by omega) (by simp [hlen0]; omega)).trans
        (List.getElem_set_self (by simp [hlen0]; omega))
    have hm := List.getElem_mem hlt
    rwa [h0] at hm
  · intro z hzz
    injection hzz with hzz
    subst hzz
    have hlt : sel0.length - 1 < sfl.length := by omega
    have h1 : sfl[sel0.length - 1] = pool.getLast hne :=
      List.getElem_set_self (by simp [hlen0]; omega)
    have hm := List.getElem_mem hlt
    rwa [h1] at hm

/-- Claim C7 witness: a four-element all-"unknown" pool with budget 3 keeps
its first and last elements and returns exactly 3. -/
theorem C7_sampler_coverage_witness :
    (select_important_segments_intelligently pool4u 3).length = 3 ∧
    q0 ∈ select_important_segments_intelligently pool4u 3 ∧
    q3 ∈ select_important_segments_intelligently pool4u 3 :=
  ⟨(C7_sampler_coverage pool4u 3 (by decide) (by decide) (by decide)).1,
   (C7_sampler_coverage pool4u 3 (by decide) (by decide) (by decide)).2.1 q0 rfl,
   (C7_sampler_coverage pool4u 3 (by decide) (by decide) (by decide)).2.2 q3 rfl⟩

/-- Claim C7 counterexample: pool of 5 with budget K = 4 > 2. The stride
selection plus first/last pinning yields `[p0, p1, p2, p4]`; the boost step
then replaces the filler-typed first element `p0` with the missing critical
segment `p3`, so the returned sample `[p3, p1, p2, p4]` does not contain
the pool's first candidate (and is not ordered as a subsequence). -/
theorem C7_sampler_coverage_counterexample :
    pool5.head? = some p0 ∧ (2 < 4 ∧ 4 < pool5.length) ∧
    select_important_segments_intelligently pool5 4 = [p3, p1, p2, p4] ∧
    p0 ∉ select_important_segments_intelligently pool5 4 := by
  have e : pool5.length = 5 := rfl
  have hs0 : stride_index 5 4 0 = 0 := by norm_num [stride_index]
  have hs1 : stride_index 5 4 1 = 1 := by norm_num [stride_index]
  have hs2 : stride_index 5 4 2 = 2 := by
    norm_num [stride_index]
    decide
  have hs3 : stride_index 5 4 3 = 3 := by
    norm_num [stride_index]
    decide
  have hrange : List.range 4 = [0, 1, 2, 3] := rfl
  have hsel0 : List.filterMap (fun i => pool5[stride_index 5 4 i]?) (List.range 4) =
      [p0, p1, p2, p3] := by
    rw [hrange]
    simp only [List.filterMap_cons, List.filterMap_nil, hs0, hs1, hs2, hs3]
    decide
  have hfull : select_important_segments_intelligently pool5 4 = [p3, p1, p2, p4] := by
    unfold select_important_segments_intelligently
    rw [if_neg (by decide)]
    simp only [e]
    rw [hsel0]
    decide
  refine ⟨rfl, ⟨by decide, by decide⟩, hfull, ?_⟩
  rw [hfull]
  decide

/-- Claim C8 (amended): no corrective sort exists in the code. The fallback
path emits segments in transcript order, so its output is sorted by
`(video_index, start_time)` whenever every input transcript is sorted by
`start`; the AI path returns segments in the response's order, which can
violate the invariant (see the counterexample). -/
theorem C8_fallback_ordering (ts : List TranscriptionResult) (p : String) (d : ℤ)
    (h : ∀ t ∈ ts, t.segments.Pairwise (fun a b => a.start ≤ b.start)) :
    ((generate_fallback ts p d).segments).Pairwise seg_order := by
  have hseg : (generate_fallback ts p d).segments =
      truncate_to_target d (fallback_keep_list ts) := rfl
  rw [hseg]
  exact (keep_list_sorted ts h).sublist (truncate_sublist d _)

/-- Claim C8 witness: the overshoot example is sorted by start, and so is
its fallback output. -/
theorem C8_fallback_ordering_witness :
    ((generate_fallback ts_over "p" 1).segments).Pairwise seg_order :=
  C8_fallback_ordering ts_over "p" 1 (by decide)

/-- Claim C8 counterexample: a well-formed AI response listing its segments
in decreasing start order. The pipeline returns them in exactly that order
— no stable sort corrects the violation of `(video_index, start)` order. -/
theorem C8_ordering_counterexample :
    (generate_script_from_prompt true (.ok ai_resp_unsorted) ts_hi "p" 1).isOk = true ∧
    result_segments (generate_script_from_prompt true (.ok ai_resp_unsorted) ts_hi "p" 1) =
      [late_seg, early_seg] ∧
    ¬ (result_segments
        (generate_script_from_prompt true (.ok ai_resp_unsorted) ts_hi "p" 1)).Pairwise
        seg_order := by
  have hpath := generate_ai_path (.ok ai_resp_unsorted) ts_hi "p" 1 _
    (by decide) (by decide) (by decide) rfl
  have hseg : result_segments
      (generate_script_from_prompt true (.ok ai_resp_unsorted) ts_hi "p" 1) =
      [late_seg, early_seg] := by
    rw [hpath]
    rfl
  refine ⟨by rw [hpath]; rfl, hseg, ?_⟩
  rw [hseg]
  intro hpair
  rw [List.pairwise_cons] at hpair
  have h := hpair.1 early_seg (by simp)
  rcases h with h | ⟨-, h⟩
  · exact absurd h (by decide)
  · norm_num [late_seg, early_seg] at h

/-- Claim C9 (amended): every fallback output segment's `content` equals
the STRIPPED text (`segment.text.strip()`) of the transcript segment it
references by `(video_index, original_segment_id)` — strict equality with
the original text therefore holds only when that text carries no
leading/trailing whitespace (see the counterexample). -/
theorem C9_content_traceability (ts : List TranscriptionResult) (p : String) (d : ℤ) :
    ∀ s ∈ (generate_fallback ts p d).segments,
      ∃ txt, referenced_text ts s = some txt ∧ s.content = py_strip txt := by
  intro s hs
  have hs2 : s ∈ fallback_keep_list ts := List.Sublist.mem hs (truncate_sublist d _)
  rw [fallback_keep_list, List.mem_flatMap] at hs2
  obtain ⟨⟨vi, t⟩, hp, hmem⟩ := hs2
  rw [video_keeps, List.mem_filterMap] at hmem
  obtain ⟨⟨si, seg⟩, hq, hfq⟩ := hmem
  by_cases hk : should_keep_segment_fallback seg
  · rw [if_pos hk] at hfq
    injection hfq with hfq
    subst hfq
    refine ⟨seg.text, ?_, rfl⟩
    rw [List.mk_mem_enum_iff_getElem?] at hp hq
    unfold referenced_text
    have h1 : (fallback_segment vi si seg).video_index.toNat = vi := Int.toNat_natCast vi
    have h2 : (fallback_segment vi si seg).original_segment_id.toNat = si :=
      Int.toNat_natCast si
    rw [h1, h2, hp]
    simp only [Option.some_bind]
    rw [hq]
    rfl
  · simp [hk] at hfq

/-- Claim C9 witness: the padded-text example's single output segment
references transcript segment (0,0) and carries its stripped text. -/
theorem C9_content_traceability_witness :
    ∃ txt, referenced_text ts_pad (fallback_segment 0 0 seg_pad) = some txt ∧
      (fallback_segment 0 0 seg_pad).content = py_strip txt :=
  C9_content_traceability ts_pad "p" 10 (fallback_segment 0 0 seg_pad)
    (by rw [ts_pad_segments]; simp)

/-- Claim C9 counterexample: an input text with surrounding whitespace. The
output content is the stripped text, which is NOT strictly equal to the
referenced input segment's text. -/
theorem C9_traceability_counterexample :
    (result_segments (generate_script_from_prompt false (.error "") ts_pad "p" 10)).map
      (fun s => s.content) = ["this is important content"] ∧
    ts_pad.map (fun t => t.segments.map (fun g => g.text)) =
      [[" this is important content "]] ∧
    "this is important content" ≠ " this is important content " := by
  rw [generate_fallback_path (.error "") ts_pad "p" 10 (by decide) (by decide) (by decide)]
  refine ⟨?_, by decide, by decide⟩
  have hseg : result_segments
      (Except.ok (finalize_metadata (set_ai_used (generate_fallback ts_pad "p" 10) false)
        ts_pad)) = (generate_fallback ts_pad "p" 10).segments := rfl
  rw [hseg, ts_pad_segments]
  decide

/-- Claim C10 (confirmed): computing `compression_ratio` never divides by
zero. In both strategies, when the summed original duration is zero —
in particular when every transcription's `total_duration` metadata entry is
missing — the ratio is 0; when it is positive the ratio is
`estimated / original`. -/
theorem C10_compression_ratio_safe (ts : List TranscriptionResult) (p : String) (d : ℤ)
    (r : AiResponse) :
    ((generate_fallback ts p d).original_duration_seconds = 0 →
      (generate_fallback ts p d).metadata.compression_ratio = 0) ∧
    (0 < (generate_fallback ts p d).original_duration_seconds →
      (generate_fallback ts p d).metadata.compression_ratio =
        (generate_fallback ts p d).estimated_duration_seconds /
          (generate_fallback ts p d).original_duration_seconds) ∧
    ((∀ t ∈ ts, t.total_duration = none) →
      (generate_fallback ts p d).original_duration_seconds = 0) ∧
    (∀ g, convert_ai_response r ts p d = .ok g →
      (g.original_duration_seconds = 0 → g.metadata.compression_ratio = 0) ∧
      (0 < g.original_duration_seconds →
        g.metadata.compression_ratio =
          g.estimated_duration_seconds / g.original_duration_seconds)) := by
  have hratio : (generate_fallback ts p d).metadata.compression_ratio =
      if total_original_duration ts > 0 then
        duration_sum (truncate_to_target d (fallback_keep_list ts)) / total_original_duration ts
      else 0 := rfl
  have horig : (generate_fallback ts p d).original_duration_seconds =
      total_original_duration ts := rfl
  refine ⟨?_, ?_, ?_, ?_⟩
  · intro h
    rw [horig] at h
    rw [hratio, if_neg (by simp [h])]
  · intro h
    rw [horig] at h
    rw [hratio, if_pos h]
    rfl
  · intro h
    rw [horig]
    apply List.sum_eq_zero
    intro x hx
    rw [List.mem_map] at hx
    obtain ⟨t, ht, hxt⟩ := hx
    rw [← hxt, h t ht]
    rfl
  · intro g hg
    unfold convert_ai_response at hg
    split_ifs at hg with ha hb hc
    · injection hg with hg
      subst hg
      constructor
      · intro h
        dsimp only at h ⊢
        rw [if_neg (by simp [h])]
      · intro h
        dsimp only at h ⊢
        rw [if_pos h]

/-- Claim C10 witness: the overshoot example has original duration 101 > 0,
so its ratio is the quotient. -/
theorem C10_compression_ratio_witness :
    (generate_fallback ts_over "p" 1).metadata.compression_ratio =
      (generate_fallback ts_over "p" 1).estimated_duration_seconds /
        (generate_fallback ts_over "p" 1).original_duration_seconds :=
  (C10_compression_ratio_safe ts_over "p" 1 ai_missing_title).2.1 (by
    show (0:ℚ) < total_original_duration ts_over
    norm_num [total_original_duration, ts_over])
